import Mathlib

/-!
Shallow embedding of the up-ynab sync webhook service.

Source files embedded here:
  - the Up API client (class Api in up.ts): validateWebhookSignature;
  - the YNAB API client (class Api in ynab.ts): removeEmptyProperties,
    YnabCache, getTransactionFromImportId, getAccount, createAccount,
    createTransaction, updateTransaction;
  - the Azure function handlers: createYnabAccount,
    getYnabTransferAccountPayeeId, webhook, init.

Modelling conventions: amounts, dates (millisecond epoch values)
and server knowledge tokens are Int; JS strings are Lean String; values that
may be null or undefined in JS are Option; JS truthiness on a possibly-null
string (null and the empty string are falsy) is the function jsTruthyS.
Remote calls are responses drawn from an explicit environment record Env;
every remote call the handler performs is recorded in an effect trace so
that claims about what is and is not sent to either ledger can be stated.
The two per-connection caches of the YNAB client are the explicit state
YnabState threaded through each operation.
-/

namespace UpSync

/-- The two configured Up connections (the `account` query selector). -/
inductive Conn where
  | primary
  | secondary
deriving DecidableEq

/-- JS truthiness of a `string | null | undefined` value: null, undefined and
the empty string are falsy. -/
def jsTruthyS : Option String → Bool
  | none => false
  | some s => s ≠ ""

/-- JS `??`-style defaulting used when reading an Option String after a
truthiness check. -/
def getDStr (o : Option String) : String := o.getD ""

/-- Slice of a string to its first 50 characters, modelling
`s.slice(0, 50)` and `s.substring(0, 50)`. -/
def sliceTo50 (s : String) : String := ⟨s.data.take 50⟩

/-- Up transaction amount object (`TransactionAmount` in up.ts). -/
structure TransactionAmount where
  currencyCode : String
  value : String
  valueInBaseUnits : Int
deriving DecidableEq

/-- Up account type (`AccountType` in up.ts). -/
inductive UpAccountType where
  | SAVER
  | TRANSACTIONAL
  | HOME_LOAN
deriving DecidableEq

/-- Up account ownership type (`AccountOwnershipType` in up.ts). -/
inductive OwnershipType where
  | INDIVIDUAL
  | JOINT
deriving DecidableEq

/-- Up transaction as constructed by `class Transaction` in up.ts.
`createdAt` is the parsed timestamp as a number; `transferAccount` models
`data.relationships.transferAccount.data?.id || null`. -/
structure UpTransaction where
  id : String
  accountId : String
  createdAt : Int
  isSettled : Bool
  description : String
  amount : TransactionAmount
  message : Option String
  foreignAmount : Option TransactionAmount
  transferAccount : Option String
deriving DecidableEq

/-- Up account as constructed by `class Account` in up.ts. -/
structure UpAccount where
  id : String
  type : UpAccountType
  name : String
  ownershipType : OwnershipType
deriving DecidableEq

/-- YNAB account types used by this program (enum AccountType in ynab.ts;
only the two used members are relevant, the others are carried for
completeness of the enum). -/
inductive YnabAccountType where
  | checking
  | savings
  | cash
  | creditCard
deriving DecidableEq

/-- Payload of a YNAB transaction (type Transaction in ynab.ts). In TS the
fields other than `cleared` are optional; we model every field as Option so
that the payload of a partial update (after removeEmptyProperties) is the
same type. -/
structure YnabTransaction where
  cleared : Option String
  amount : Option Int
  account_id : Option String
  date : Option String
  import_id : Option String
  memo : Option String
  payee_id : Option String
  payee_name : Option String
deriving DecidableEq

/-- The pair of ids cached per import id (type TransactionIds in ynab.ts). -/
structure TransactionIds where
  id : String
  transfer_transaction_id : Option String
deriving DecidableEq

/-- Cached YNAB account reference (type Account in ynab.ts). -/
structure YnabAccount where
  id : String
  payeeId : String
deriving DecidableEq

/-- removeEmptyProperties from ynab.ts: drops properties whose value is
null/undefined or the empty string.  A number field always passes the
filter (`value != null` and `value !== ""` both hold for any number,
including 0), so `amount` is kept whenever present. -/
def dropEmpty (o : Option String) : Option String :=
  match o with
  | none => none
  | some s => if s = "" then none else some s

/-- removeEmptyProperties applied to a YNAB transaction payload. -/
def removeEmptyProperties (t : YnabTransaction) : YnabTransaction where
  cleared := dropEmpty t.cleared
  amount := t.amount
  account_id := dropEmpty t.account_id
  date := dropEmpty t.date
  import_id := dropEmpty t.import_id
  memo := dropEmpty t.memo
  payee_id := dropEmpty t.payee_id
  payee_name := dropEmpty t.payee_name

/-- The two YnabCache instances of ynab.ts (accounts keyed by Up account id,
transactions keyed by import id), each a Map plus the cursor fields
lastKnowledgeOfServer and sinceDate.  The accounts cache never uses its
sinceDate field (kept for fidelity to `class YnabCache`). -/
structure YnabState where
  accounts : List (String × YnabAccount)
  accountsKnowledge : Int
  accountsSinceDate : Option Int
  transactions : List (String × TransactionIds)
  txKnowledge : Int
  txSinceDate : Option Int
deriving DecidableEq

/-- A fresh YnabState: both caches empty, knowledge 0, no since date
(`lastKnowledgeOfServer = 0`, `sinceDate` undefined). -/
def initialYnabState : YnabState := ⟨[], 0, none, [], 0, none⟩

/-- Map.set on an association list: the newest binding shadows older ones,
matching JS Map overwrite semantics under List.lookup. -/
def mapSet {α : Type} (m : List (String × α)) (k : String) (v : α) :
    List (String × α) := (k, v) :: m

/-- One entry of the YNAB transactions listing used to refresh the
transactions cache. -/
structure ServerTx where
  id : String
  transfer_transaction_id : Option String
  import_id : Option String
deriving DecidableEq

/-- The data object of the YNAB transactions listing response. -/
structure TxListData where
  transactions : List ServerTx
  server_knowledge : Int
deriving DecidableEq

/-- One entry of the YNAB accounts listing used to refresh the accounts
cache. -/
structure AccListEntry where
  id : String
  transfer_payee_id : String
  note : Option String
deriving DecidableEq

/-- The data object of the YNAB accounts listing response. -/
structure AccListData where
  accounts : List AccListEntry
  server_knowledge : Int
deriving DecidableEq

/-- Response to a YNAB create-transaction call: the created transaction id,
the linked transfer transaction id if YNAB paired the transfer, and the
echoed import id. -/
structure CreateTxResp where
  id : String
  transfer_transaction_id : Option String
  import_id : Option String
deriving DecidableEq

/-- Response to a YNAB create-account call. -/
structure CreateAccResp where
  id : String
  transfer_payee_id : String
deriving DecidableEq

/-- The parsed webhook body fields the handler reads
(`json.data.attributes.eventType` and
`json.data.relationships.transaction.data.id`). -/
structure WebhookEvent where
  eventType : String
  transactionId : String
deriving DecidableEq

/-- Environment of one invocation: the responses of both remote ledgers and
the ambient clock/locale functions.  The handler is deterministic given an
Env; each remote call is also recorded in the effect trace. -/
structure Env where
  hmacHex : String → String → String
  parseEvent : String → WebhookEvent
  getTransaction : Conn → String → UpTransaction
  getUpAccount : Conn → String → UpAccount
  upAccountPrimary : String → Option UpAccount
  upAccountSecondary : String → UpAccount
  listTransactions : String → Int → TxListData
  listAccounts : Int → AccListData
  createAccountResp : String → YnabAccountType → Int → String → CreateAccResp
  createTransactionResp : YnabTransaction → CreateTxResp
  nowDefaultSince : Int
  dateStr : Int → String
  timeStr : Int → String

/-- The calls the handler makes against the two ledgers, in order.  The
list/fetch constructors are reads; createAccount, createTransaction and
updateTransaction are the destination-ledger writes. -/
inductive Effect where
  | fetchUpTransaction (conn : Conn) (id : String)
  | fetchUpAccount (conn : Conn) (id : String)
  | listYnabTransactions (sinceDate : String) (lastKnowledge : Int)
  | listYnabAccounts (lastKnowledge : Int)
  | createAccount (name : String) (type : YnabAccountType) (balance : Int) (note : String)
  | createTransaction (payload : YnabTransaction)
  | updateTransaction (id : String) (payload : YnabTransaction)
deriving DecidableEq

/-- Result of one state-passing step of the YNAB client. -/
structure StepOut (α : Type) where
  val : α
  st : YnabState
  fx : List Effect

/-- A destination-ledger write (as opposed to a read/list call). -/
def isWrite : Effect → Bool
  | .createAccount _ _ _ _ => true
  | .createTransaction _ => true
  | .updateTransaction _ _ => true
  | _ => false

/-- A destination-transaction creation call. -/
def isCreateTx : Effect → Bool
  | .createTransaction _ => true
  | _ => false

/-- Up.Api.validateWebhookSignature: returns false when the signature header
is falsy (absent or empty) or the webhook secret is falsy (unset, modelled
as the empty string as in the constructor default), otherwise compares the
HMAC-SHA256 hex digest of the body with the supplied signature. -/
def validateWebhookSignature (env : Env) (webhookSecret : String)
    (body : String) (signature : Option String) : Bool :=
  if jsTruthyS signature = false ∨ webhookSecret = "" then false
  else env.hmacHex webhookSecret body = getDStr signature

/-- Extraction of the regex match `/upId:([a-f0-9-]{36}\b)/i` character
class: hex digits in either case, decimal digits, or a dash. -/
def isUpIdChar (c : Char) : Bool :=
  decide (('a' ≤ c ∧ c ≤ 'f') ∨ ('A' ≤ c ∧ c ≤ 'F') ∨ ('0' ≤ c ∧ c ≤ '9') ∨ c = '-')

/-- A JS regex word character, for the trailing word-boundary of the upId
pattern. -/
def isWordChar (c : Char) : Bool :=
  decide (('a' ≤ c ∧ c ≤ 'z') ∨ ('A' ≤ c ∧ c ≤ 'Z') ∨ ('0' ≤ c ∧ c ≤ '9') ∨ c = '_')

/-- The trailing word boundary of the upId pattern: the match is at the
string end or followed by a non-word character. -/
def upIdBoundary : List Char → Bool
  | [] => true
  | d :: _ => !(isWordChar d)

/-- The regex match `note.match(/upId:([a-f0-9-]{36}\b)/i)` of
Ynab.Api.getAccount: scan for the literal tag `upId:` followed by exactly 36
characters of the id character class ending at a word boundary, returning
the captured 36-character group of the first match. -/
def upIdMatch : List Char → Option (List Char)
  | [] => none
  | c :: rest =>
    let s := c :: rest
    if ("upId:".data).isPrefixOf s then
      let tail := s.drop 5
      let cand := tail.take 36
      if cand.length == 36 && cand.all isUpIdChar && upIdBoundary (tail.drop 36) then
        some cand
      else upIdMatch rest
    else upIdMatch rest

/-- The sync window start of a transactions-cache refresh before any
caller-date widening: the remembered sinceDate, or the default of 4 days
before now (todayOffset(-4), abstracted as the environment value
nowDefaultSince) when none is remembered yet. -/
def txSyncFrom0 (env : Env) (st : YnabState) : Int :=
  match st.txSinceDate with
  | some d => d
  | none => env.nowDefaultSince

/-- The (window start, knowledge token) pair actually queried by a
transactions-cache refresh: the remembered pair, except that a caller
date earlier than the window start widens the window to it and zeroes the
token. -/
def txQueryPair (env : Env) (st : YnabState) (transactionDate : Option Int) :
    Int × Int :=
  match transactionDate with
  | some d => if d < txSyncFrom0 env st then (d, 0)
              else (txSyncFrom0 env st, st.txKnowledge)
  | none => (txSyncFrom0 env st, st.txKnowledge)

/-- Ynab.Api.getTransactionFromImportId: on a cache hit return the cached
ids; on a miss refresh the transactions cache from the server listing —
widening the sync window to the supplied transaction date and zeroing the
knowledge token when that date precedes the window start — then retry the
lookup.  The returned effect list records the listing query issued. -/
def getTransactionFromImportId (env : Env) (st : YnabState)
    (importId : String) (transactionDate : Option Int) :
    StepOut (Option TransactionIds) :=
  match st.transactions.lookup importId with
  | some ids => ⟨some ids, st, []⟩
  | none =>
    let p : Int × Int := txQueryPair env st transactionDate
    let data := env.listTransactions (env.dateStr p.1) p.2
    let cache1 :=
      (data.transactions.filter (fun x => jsTruthyS x.import_id)).foldl
        (fun m x => mapSet m (getDStr x.import_id)
          ⟨x.id, x.transfer_transaction_id⟩) st.transactions
    ⟨cache1.lookup importId,
     { st with transactions := cache1,
               txKnowledge := data.server_knowledge,
               txSinceDate := some p.1 },
     [Effect.listYnabTransactions (env.dateStr p.1) p.2]⟩

/-- Ynab.Api.getAccount: on a cache hit return the cached reference; on a
miss refresh the accounts cache from the server listing, keying each entry
whose note carries a upId back-link by the extracted Up account id, then
retry the lookup. -/
def ynabGetAccount (env : Env) (st : YnabState) (upAccountId : String) :
    StepOut (Option YnabAccount) :=
  match st.accounts.lookup upAccountId with
  | some a => ⟨some a, st, []⟩
  | none =>
    let data := env.listAccounts st.accountsKnowledge
    let cache1 :=
      data.accounts.foldl
        (fun m a =>
          match a.note with
          | none => m
          | some n =>
            match upIdMatch n.data with
            | some key => mapSet m ⟨key⟩ ⟨a.id, a.transfer_payee_id⟩
            | none => m) st.accounts
    ⟨cache1.lookup upAccountId,
     { st with accounts := cache1, accountsKnowledge := data.server_knowledge },
     [Effect.listYnabAccounts st.accountsKnowledge]⟩

/-- Ynab.Api.createAccount: posts the new account (name truncated again to
50 characters, the note carrying the upId back-link) and writes the new
reference into the accounts cache before returning it. -/
def ynabCreateAccount (env : Env) (st : YnabState) (name : String)
    (type : YnabAccountType) (upAccountId : String) (balance : Int) :
    StepOut YnabAccount :=
  let note := "upId:" ++ upAccountId
  let resp := env.createAccountResp (sliceTo50 name) type balance note
  let account : YnabAccount := ⟨resp.id, resp.transfer_payee_id⟩
  ⟨account,
   { st with accounts := mapSet st.accounts upAccountId account },
   [Effect.createAccount (sliceTo50 name) type balance note]⟩

/-- createYnabAccount from the functions file: checking for transactional
Up accounts and savings otherwise, display name from the fixed template
truncated to 50 characters, balance left at the createAccount default 0. -/
def createYnabAccount (env : Env) (st : YnabState) (upAccount : UpAccount) :
    StepOut YnabAccount :=
  let type := if upAccount.type = UpAccountType.TRANSACTIONAL
    then YnabAccountType.checking else YnabAccountType.savings
  let name := sliceTo50 ("Up: " ++ upAccount.name ++ " (" ++ upAccount.id ++ ")")
  ynabCreateAccount env st name type upAccount.id 0

/-- getYnabTransferAccountPayeeId from the functions file: resolve the
counterpart YNAB account (creating it on a miss, fetching the Up account
from the primary connection and falling back to the secondary), returning
its transfer payee id. -/
def getYnabTransferAccountPayeeId (env : Env) (st : YnabState)
    (upTransferAccountId : String) : StepOut String :=
  let look := ynabGetAccount env st upTransferAccountId
  match look.val with
  | some a => ⟨a.payeeId, look.st, look.fx⟩
  | none =>
    let upAccount :=
      match env.upAccountPrimary upTransferAccountId with
      | some a => a
      | none => env.upAccountSecondary upTransferAccountId
    let created := createYnabAccount env look.st upAccount
    ⟨created.val.payeeId, created.st, look.fx ++ created.fx⟩

/-- Ynab.Api.createTransaction: posts the payload and, when the response
echoes a truthy import id, writes the returned ids into the transactions
cache under it. -/
def ynabCreateTransaction (env : Env) (st : YnabState) (t : YnabTransaction) :
    StepOut TransactionIds :=
  let resp := env.createTransactionResp t
  let ids : TransactionIds := ⟨resp.id, resp.transfer_transaction_id⟩
  let st1 :=
    if jsTruthyS resp.import_id then
      { st with transactions := mapSet st.transactions (getDStr resp.import_id) ids }
    else st
  ⟨ids, st1, [Effect.createTransaction t]⟩

/-- Ynab.Api.updateTransaction: puts the payload after
removeEmptyProperties; stateless. -/
def ynabUpdateTransaction (id : String) (t : YnabTransaction) : Effect :=
  Effect.updateTransaction id (removeEmptyProperties t)

/-- Dash removal used on the Up transaction uuid:
`id.replaceAll("-", "")` with the single-character pattern and empty
replacement removes every dash occurrence. -/
def replaceAllDash : List Char → List Char
  | [] => []
  | c :: rest => if c = '-' then replaceAllDash rest else c :: replaceAllDash rest

/-- The idempotency key (YNAB import id) of a source transaction:
``up:`` followed by the uuid with dashes removed
(`` `up:${upTransaction.id.replaceAll("-", "")}` ``). -/
def importIdOf (t : UpTransaction) : String :=
  "up:" ++ (⟨replaceAllDash t.id.data⟩ : String)

/-- The clearing state string sent to YNAB:
`upTransaction.isSettled ? "cleared" : "uncleared"`. -/
def clearedStr (t : UpTransaction) : String :=
  if t.isSettled then "cleared" else "uncleared"

/-- The partial YNAB transaction built for the update branch of the webhook
handler: clearing state and the amount rescaled by the fixed factor 10. -/
def updateTx (t : UpTransaction) : YnabTransaction :=
  ⟨some (clearedStr t), some (t.amount.valueInBaseUnits * 10),
   none, none, none, none, none, none⟩

/-- The payload `{ cleared: "cleared" }` sent to clear the other side of a
transfer. -/
def clearedOnlyTx : YnabTransaction :=
  ⟨some "cleared", none, none, none, none, none, none, none⟩

/-- The memo string of a newly created YNAB transaction: the wall-clock
time of the source event, then `: message` when a truthy message is
present, then the foreign amount in parentheses when present. -/
def buildMemo (env : Env) (t : UpTransaction) : String :=
  let memo0 := env.timeStr t.createdAt
  let memo1 :=
    if jsTruthyS t.message then memo0 ++ ": " ++ getDStr t.message else memo0
  match t.foreignAmount with
  | some fa => memo1 ++ " (" ++ fa.currencyCode ++ " " ++ fa.value ++ ")"
  | none => memo1

/-- The final step shared by both branches of the handler: when the
resolved identity carries a truthy transfer counterpart transaction id and
the source transaction is settled, clear the other side of the transfer
with a minimal update. -/
def ctpTail (ids : TransactionIds) (t : UpTransaction) : List Effect :=
  if jsTruthyS ids.transfer_transaction_id = true ∧ t.isSettled = true then
    [ynabUpdateTransaction (getDStr ids.transfer_transaction_id) clearedOnlyTx]
  else []

/-- The reconciliation core of the webhook handler (lines from the import
id computation to the transfer-clearing step): look the idempotency key up
in the transactions cache; on a hit send the minimal clearing/amount
update; on a miss resolve (or provision) the owning YNAB account, build the
full transaction record, resolve the transfer counterpart payee when the
source transaction is a transfer, create the transaction, and finally
propagate clearing to the counterpart transaction when one is linked and
the source transaction is settled. -/
def reconcile (env : Env) (upTransaction : UpTransaction)
    (upAccount : UpAccount) (st : YnabState) : StepOut TransactionIds :=
  let importId := importIdOf upTransaction
  let look := getTransactionFromImportId env st importId (some upTransaction.createdAt)
  match look.val with
  | some ynabTransactionId =>
    ⟨ynabTransactionId, look.st,
     look.fx ++ ynabUpdateTransaction ynabTransactionId.id (updateTx upTransaction)
       :: ctpTail ynabTransactionId upTransaction⟩
  | none =>
    let accLook := ynabGetAccount env look.st upAccount.id
    let acc : StepOut YnabAccount :=
      match accLook.val with
      | some a => ⟨a, accLook.st, accLook.fx⟩
      | none =>
        let c := createYnabAccount env accLook.st upAccount
        ⟨c.val, c.st, accLook.fx ++ c.fx⟩
    let base : YnabTransaction :=
      ⟨some (clearedStr upTransaction),
       some (upTransaction.amount.valueInBaseUnits * 10),
       some acc.val.id,
       some (env.dateStr upTransaction.createdAt),
       some importId,
       some (buildMemo env upTransaction),
       none,
       some upTransaction.description⟩
    let withPayee : StepOut YnabTransaction :=
      if jsTruthyS upTransaction.transferAccount = true then
        let p := getYnabTransferAccountPayeeId env acc.st
          (getDStr upTransaction.transferAccount)
        ⟨{ base with payee_id := some p.val }, p.st, acc.fx ++ p.fx⟩
      else ⟨base, acc.st, acc.fx⟩
    let created := ynabCreateTransaction env withPayee.st withPayee.val
    ⟨created.val, created.st,
     look.fx ++ withPayee.fx ++ created.fx ++ ctpTail created.val upTransaction⟩

/-- Result of one webhook invocation: HTTP status and body, the trace of
remote calls, the YNAB cache state after the invocation, and the resolved
destination transaction identity (none when the event was not reconciled). -/
structure HandlerResult where
  status : Nat
  body : Option String
  effects : List Effect
  state : YnabState
  resolved : Option TransactionIds
deriving DecidableEq

/-- The connection selected by the validated `account` query parameter. -/
def connOf (accountParam : Option String) : Conn :=
  if accountParam = some "primary" then Conn.primary else Conn.secondary

/-- The webhook secret configured for a connection (empty string when the
environment variable is unset, as in the Api constructor default). -/
structure Config where
  primarySecret : String
  secondarySecret : String
deriving DecidableEq

/-- The secret of the selected connection. -/
def secretFor (cfg : Config) : Conn → String
  | Conn.primary => cfg.primarySecret
  | Conn.secondary => cfg.secondarySecret

/-- The event-type dispatch of the webhook handler after the signature
check: created/settled events fetch the transaction, apply the
internal-transfer and joint-account skip rules and reconcile; deleted and
all other event types fall through to the final 200 response. -/
def handleEvent (env : Env) (account : Conn) (json : WebhookEvent)
    (st : YnabState) : HandlerResult :=
  if json.eventType = "TRANSACTION_CREATED" ∨ json.eventType = "TRANSACTION_SETTLED" then
    let upTransaction := env.getTransaction account json.transactionId
    let e0 : List Effect := [Effect.fetchUpTransaction account json.transactionId]
    if jsTruthyS upTransaction.transferAccount = true ∧
        upTransaction.amount.valueInBaseUnits > 0 then
      ⟨200, none, e0, st, none⟩
    else
      let upAccount := env.getUpAccount account upTransaction.accountId
      let e1 := e0 ++ [Effect.fetchUpAccount account upTransaction.accountId]
      if upAccount.ownershipType = OwnershipType.JOINT ∧ account = Conn.secondary then
        ⟨200, none, e1, st, none⟩
      else
        let r := reconcile env upTransaction upAccount st
        ⟨200, some "", e1 ++ r.fx, r.st, some r.val⟩
  else
    ⟨200, some "", [], st, none⟩

/-- The webhook POST handler: reject an invalid account selector, then an
invalid signature, both with 403 and no remote call; otherwise dispatch on
the parsed event. -/
def webhook (env : Env) (cfg : Config) (accountParam signature : Option String)
    (body : String) (st : YnabState) : HandlerResult :=
  if accountParam ≠ some "primary" ∧ accountParam ≠ some "secondary" then
    ⟨403, some "Invalid account", [], st, none⟩
  else
    let account := connOf accountParam
    if validateWebhookSignature env (secretFor cfg account) body signature = false then
      ⟨403, some "Invalid signature", [], st, none⟩
    else
      handleEvent env account (env.parseEvent body) st

/-- An existing webhook registration as listed by the Up API (`class
Webhook`; only the fields the init handler reads). -/
structure WebhookRec where
  id : String
  url : String
deriving DecidableEq

/-- Environment of one init invocation: the process environment variables,
the webhook listing of each connection, the secret key issued by the Up
newWebhook call, and the URL rendering (`new URL(base)` plus
`searchParams.set("account", account)` then `toString`). -/
structure InitEnv where
  envVar : String → Option String
  getWebhooks : Conn → List WebhookRec
  newWebhookSecretKey : Conn → Option String
  renderUrl : String → String → String

/-- Up-side calls the init handler makes. -/
inductive InitEffect where
  | deleteWebhook (id : String)
  | createWebhook (url : String) (description : String)
deriving DecidableEq

/-- Result of one init invocation. -/
structure InitResult where
  status : Nat
  body : String
  fx : List InitEffect
deriving DecidableEq

/-- The account string of a connection, as used in the rendered callback
URL and the new webhook description. -/
def connStr : Conn → String
  | Conn.primary => "primary"
  | Conn.secondary => "secondary"

/-- The per-connection secret environment variable name
`` `UP_${account.toUpperCase()}_WEBHOOK` `` evaluated at the two valid
account strings. -/
def secretVarName : Conn → String
  | Conn.primary => "UP_PRIMARY_WEBHOOK"
  | Conn.secondary => "UP_SECONDARY_WEBHOOK"

/-- JS template interpolation of a possibly-undefined string value, which
prints the text `undefined` when absent. -/
def showOptStr : Option String → String
  | some s => s
  | none => "undefined"

/-- The init GET handler: 403 on an invalid account selector; 500 when the
WEBHOOK_URL configuration is falsy, when the connection secret variable is
already truthy, or when webhooks matching the callback URL exist and
replaceExisting is not set; otherwise delete the matching webhooks when
replaceExisting is set, create the new webhook and answer 200 with the
issued secret in the body. -/
def init (ienv : InitEnv) (replaceExistingParam accountParam : Option String) :
    InitResult :=
  let replaceExisting := replaceExistingParam = some "true"
  if accountParam ≠ some "primary" ∧ accountParam ≠ some "secondary" then
    ⟨403, "Invalid account", []⟩
  else
    let account := connOf accountParam
    if jsTruthyS (ienv.envVar "WEBHOOK_URL") = false then
      ⟨500, "Environmental variable WEBHOOK_URL is missing.", []⟩
    else
      let whUrlVar := getDStr (ienv.envVar "WEBHOOK_URL")
      let secretVariableName := secretVarName account
      if jsTruthyS (ienv.envVar secretVariableName) = true then
        ⟨500, "Environmental variable " ++ secretVariableName ++ " is already set.", []⟩
      else
        let webhookUrl := ienv.renderUrl whUrlVar (connStr account)
        let matchingWebhooks :=
          (ienv.getWebhooks account).filter (fun x => x.url = webhookUrl)
        if matchingWebhooks.length > 0 ∧ ¬replaceExisting then
          ⟨500,
           "Found " ++ toString matchingWebhooks.length ++
             " existing webhooks using this url. Delete them with replaceExisting=true",
           []⟩
        else
          let deletions :=
            if replaceExisting then
              matchingWebhooks.map (fun w => InitEffect.deleteWebhook w.id)
            else []
          ⟨200,
           "Save the secret as a variable in " ++ secretVariableName ++ ": " ++
             showOptStr (ienv.newWebhookSecretKey account),
           deletions ++
             [InitEffect.createWebhook webhookUrl ("up-ynab-sync " ++ connStr account)]⟩

/-- A sequence of transactions-cache lookups (import id and caller-supplied
transaction date per call), threading the cache state. -/
def runTxLookups (env : Env) : List (String × Option Int) → YnabState → YnabState
  | [], st => st
  | (k, d) :: rest, st =>
    runTxLookups env rest (getTransactionFromImportId env st k d).st

/-- The payload of a counterpart-clearing update as actually sent (after
removeEmptyProperties): clearing state cleared and nothing else. -/
def minimalClearPayload : YnabTransaction := removeEmptyProperties clearedOnlyTx

/-- Whether an effect is a minimal counterpart-clearing update: an update
whose payload is exactly the cleared-only payload. -/
def isMinimalClearUpdate : Effect → Bool
  | .updateTransaction _ p => decide (p = minimalClearPayload)
  | _ => false

/-! ### Concrete fixtures used by witnesses and counterexamples -/

/-- Concrete source transaction: the standalone debit of the spec
scenario. -/
def sampleTx : UpTransaction :=
  ⟨"t1", "a1", 100, true, "Coffee", ⟨"AUD", "-15.00", -1500⟩, none, none, none⟩

/-- Concrete individual transactional source account. -/
def sampleAccount : UpAccount :=
  ⟨"a1", UpAccountType.TRANSACTIONAL, "Spending", OwnershipType.INDIVIDUAL⟩

/-- Concrete joint source account. -/
def jointAccount : UpAccount :=
  ⟨"a2", UpAccountType.SAVER, "Shared", OwnershipType.JOINT⟩

/-- Concrete non-transfer debit owned by the joint account. -/
def jointTx : UpTransaction :=
  ⟨"t4", "a2", 100, false, "Groceries", ⟨"AUD", "-1.00", -100⟩, none, none, none⟩

/-- Concrete credit side of an internal transfer owned by the joint
account: transfer-counterpart account present and amount positive. -/
def transferCreditTx : UpTransaction :=
  ⟨"t2", "a2", 100, true, "Transfer", ⟨"AUD", "5.00", 500⟩, none, none, some "a9"⟩

/-- Concrete environment: a created event for sampleTx, empty destination
listings, and a destination ledger that echoes the import id on
creation. -/
def env0 : Env where
  hmacHex := fun _ _ => "sig"
  parseEvent := fun _ => ⟨"TRANSACTION_CREATED", "t1"⟩
  getTransaction := fun _ _ => sampleTx
  getUpAccount := fun _ _ => sampleAccount
  upAccountPrimary := fun _ => none
  upAccountSecondary := fun _ => sampleAccount
  listTransactions := fun _ _ => ⟨[], 7⟩
  listAccounts := fun _ => ⟨[], 5⟩
  createAccountResp := fun _ _ _ _ => ⟨"ya1", "pay1"⟩
  createTransactionResp := fun tx => ⟨"yt1", none, tx.import_id⟩
  nowDefaultSince := 0
  dateStr := fun n => toString n
  timeStr := fun _ => "12:34"

/-- env0 with the event owned by the joint account and no transfer. -/
def envJoint : Env :=
  { env0 with
      parseEvent := fun _ => ⟨"TRANSACTION_CREATED", "t4"⟩
      getTransaction := fun _ _ => jointTx
      getUpAccount := fun _ _ => jointAccount }

/-- env0 with the event being the credit side of a transfer owned by the
joint account. -/
def envJointCredit : Env :=
  { env0 with
      parseEvent := fun _ => ⟨"TRANSACTION_CREATED", "t2"⟩
      getTransaction := fun _ _ => transferCreditTx
      getUpAccount := fun _ _ => jointAccount }

/-- Concrete webhook secrets for both connections. -/
def cfg0 : Config := ⟨"sec1", "sec2"⟩

/-- Concrete cache state remembering a window start of 10 and a nonzero
knowledge token, with an empty transactions cache. -/
def st10 : YnabState := ⟨[], 0, none, [], 3, some 10⟩

/-- Concrete cache state whose transactions cache already holds the
idempotency key of sampleTx, with no transfer counterpart. -/
def stHit : YnabState := ⟨[], 0, none, [("up:t1", ⟨"yOld", none⟩)], 0, none⟩

/-- Concrete cache state whose transactions cache already holds the
idempotency key of sampleTx, with a linked transfer counterpart. -/
def stHitT : YnabState := ⟨[], 0, none, [("up:t1", ⟨"yOld", some "tt9"⟩)], 0, none⟩

/-- Concrete init environment: callback URL configured, secrets unset, one
existing webhook already registered at the rendered callback URL. -/
def ienv0 : InitEnv where
  envVar := fun n => if n = "WEBHOOK_URL" then some "https://h/x" else none
  getWebhooks := fun _ => [⟨"w1", "https://h/x?account=primary"⟩]
  newWebhookSecretKey := fun _ => some "sek"
  renderUrl := fun b a => b ++ "?account=" ++ a

/-- ienv0 with no pre-existing webhooks. -/
def ienvOk : InitEnv := { ienv0 with getWebhooks := fun _ => [] }

/-! ### Helper lemmas -/

theorem lookup_mapSet_self {α : Type} (m : List (String × α)) (k : String) (v : α) :
    (mapSet m k v).lookup k = some v := by
  simp [mapSet, List.lookup]

theorem replaceAllDash_eq_filter (l : List Char) :
    replaceAllDash l = l.filter (fun c => c ≠ '-') := by
  induction l with
  | nil => rfl
  | cons c rest ih =>
    by_cases h : c = '-' <;> simp [replaceAllDash, h, ih]

theorem importIdOf_ne_empty (t : UpTransaction) : importIdOf t ≠ "" := by
  intro h
  have h2 := congrArg String.data h
  rw [importIdOf] at h2
  simp [String.data_append] at h2

theorem getTx_val_eq_lookup (env : Env) (st : YnabState) (k : String)
    (d : Option Int) :
    (getTransactionFromImportId env st k d).val =
      (getTransactionFromImportId env st k d).st.transactions.lookup k := by
  cases h : st.transactions.lookup k <;>
    simp [getTransactionFromImportId, h]

theorem sliceTo50_idem (s : String) : sliceTo50 (sliceTo50 s) = sliceTo50 s := by
  simp [sliceTo50, List.take_take]

theorem sliceTo50_length_le (s : String) : (sliceTo50 s).length ≤ 50 := by
  have h : (sliceTo50 s).length = (s.data.take 50).length := rfl
  rw [h, List.length_take]
  exact min_le_left _ _

/-! ### C7: the idempotency key -/

/-- C7: for every source transaction, the idempotency key computed by the
handler equals the fixed prefix `up:` concatenated with the transaction id
from which every dash character has been removed; it is a pure function of
the id alone, and a transaction with id `t1` gets the key `up:t1`. -/
theorem C7_idempotency_key (t : UpTransaction) :
    importIdOf t = "up:" ++ (⟨t.id.data.filter (fun c => c ≠ '-')⟩ : String) ∧
    (∀ t2 : UpTransaction, t2.id = t.id → importIdOf t2 = importIdOf t) ∧
    (∀ t3 : UpTransaction, t3.id = "t1" → importIdOf t3 = "up:t1") := by
  refine ⟨?_, ?_, ?_⟩
  · rw [importIdOf, replaceAllDash_eq_filter]
  · intro t2 h
    rw [importIdOf, importIdOf, h]
  · intro t3 h
    rw [importIdOf, h]
    rfl

/-- Witness for C7 at the concrete id t1. -/
theorem C7_idempotency_key_witness : importIdOf sampleTx = "up:t1" :=
  (C7_idempotency_key sampleTx).2.2 sampleTx rfl

/-! ### C8: account provisioning -/

/-- C8: every account provisioning creates a destination account whose name
is the template `Up: name (id)` truncated to at most 50 characters, whose
category is checking for transactional source accounts and savings for
every other type, whose balance is zero and whose note is `upId:id`; the
new reference is written through to the accounts cache, so a subsequent
lookup of the same source account id returns it with no further remote
call. -/
theorem C8_account_provisioning (env : Env) (st : YnabState) (u : UpAccount) :
    (createYnabAccount env st u).fx =
      [Effect.createAccount (sliceTo50 ("Up: " ++ u.name ++ " (" ++ u.id ++ ")"))
        (if u.type = UpAccountType.TRANSACTIONAL then YnabAccountType.checking
         else YnabAccountType.savings) 0 ("upId:" ++ u.id)] ∧
    (sliceTo50 ("Up: " ++ u.name ++ " (" ++ u.id ++ ")")).length ≤ 50 ∧
    (createYnabAccount env st u).st.accounts.lookup u.id =
      some (createYnabAccount env st u).val ∧
    ynabGetAccount env (createYnabAccount env st u).st u.id =
      ⟨some (createYnabAccount env st u).val, (createYnabAccount env st u).st, []⟩ := by
  have hl : (createYnabAccount env st u).st.accounts.lookup u.id =
      some (createYnabAccount env st u).val := by
    simp [createYnabAccount, ynabCreateAccount, lookup_mapSet_self]
  refine ⟨?_, sliceTo50_length_le _, hl, ?_⟩
  · simp [createYnabAccount, ynabCreateAccount, sliceTo50_idem]
  · rw [ynabGetAccount, hl]

/-! ### C10: missing signature or secret -/

/-- C10: on a valid connection selector, when the signature header is
absent or the selected connection webhook secret is unconfigured, signature
validation returns false and the handler answers 403 with no remote call,
no cache change and no reconciliation. -/
theorem C10_signature_guard (env : Env) (cfg : Config)
    (accountParam signature : Option String) (body : String) (st : YnabState)
    (hacc : accountParam = some "primary" ∨ accountParam = some "secondary")
    (hmiss : signature = none ∨ secretFor cfg (connOf accountParam) = "") :
    validateWebhookSignature env (secretFor cfg (connOf accountParam)) body signature
      = false ∧
    webhook env cfg accountParam signature body st =
      ⟨403, some "Invalid signature", [], st, none⟩ := by
  have hv : validateWebhookSignature env (secretFor cfg (connOf accountParam))
      body signature = false := by
    rcases hmiss with h | h
    · subst h
      simp [validateWebhookSignature, jsTruthyS]
    · rw [validateWebhookSignature, h]
      simp
  refine ⟨hv, ?_⟩
  rcases hacc with h | h <;> subst h <;>
    simp [webhook, hv]

/-- Witness for C10: absent signature on the primary connection. -/
theorem C10_signature_guard_witness :
    validateWebhookSignature env0 (secretFor cfg0 (connOf (some "primary"))) "b" none
      = false ∧
    webhook env0 cfg0 (some "primary") none "b" initialYnabState =
      ⟨403, some "Invalid signature", [], initialYnabState, none⟩ :=
  C10_signature_guard env0 cfg0 (some "primary") none "b" initialYnabState
    (Or.inl rfl) (Or.inl rfl)

/-! ### C4: sync window monotonicity -/

theorem txStep_since (env : Env) (st : YnabState) (k : String) (d : Option Int)
    (dPrev : Int) (hp : st.txSinceDate = some dPrev) :
    ∃ q, ((getTransactionFromImportId env st k d).st).txSinceDate = some q ∧
      q ≤ dPrev := by
  have hs0 : txSyncFrom0 env st = dPrev := by simp [txSyncFrom0, hp]
  cases hl : st.transactions.lookup k with
  | some ids =>
    exact ⟨dPrev, by simp [getTransactionFromImportId, hl, hp], le_refl _⟩
  | none =>
    refine ⟨(txQueryPair env st d).1, by simp [getTransactionFromImportId, hl], ?_⟩
    cases d with
    | none => simp [txQueryPair, hs0]
    | some x =>
      rw [txQueryPair, hs0]
      by_cases hx : x < dPrev
      · simp [hx]
        exact le_of_lt hx
      · simp [hx]

/-- C4: the transactions-cache sync window start never increases across
lookups and refreshes: once set it may only stay or move earlier, a strict
decrease happens only to the caller-supplied transaction date and zeroes
the knowledge token of the issued query, a non-widening refresh reuses the
remembered token and keeps the window start, a refresh of a fresh cache
establishes the default window start of 4 days ago unless the caller date
is earlier, and over any sequence of lookups the window start stays at or
below any previously remembered value. -/
theorem C4_window_monotonic (env : Env) :
    (∀ st k d dPrev d2, st.txSinceDate = some dPrev →
        ((getTransactionFromImportId env st k d).st).txSinceDate = some d2 →
        d2 ≤ dPrev) ∧
    (∀ st k d dPrev d2, st.txSinceDate = some dPrev →
        ((getTransactionFromImportId env st k d).st).txSinceDate = some d2 →
        d2 < dPrev →
        d = some d2 ∧
        (getTransactionFromImportId env st k d).fx =
          [Effect.listYnabTransactions (env.dateStr d2) 0]) ∧
    (∀ st k d, st.transactions.lookup k = none →
        (∀ x, d = some x → ¬ x < txSyncFrom0 env st) →
        (getTransactionFromImportId env st k d).fx =
          [Effect.listYnabTransactions (env.dateStr (txSyncFrom0 env st))
            st.txKnowledge] ∧
        ((getTransactionFromImportId env st k d).st).txSinceDate =
          some (txSyncFrom0 env st)) ∧
    (∀ st k d, st.transactions.lookup k = none → st.txSinceDate = none →
        ∃ q, ((getTransactionFromImportId env st k d).st).txSinceDate = some q ∧
          (q = env.nowDefaultSince ∨ (d = some q ∧ q < env.nowDefaultSince))) ∧
    (∀ calls st dPrev, st.txSinceDate = some dPrev →
        ∀ d2, (runTxLookups env calls st).txSinceDate = some d2 → d2 ≤ dPrev) := by
  have hseq : ∀ calls st dPrev, st.txSinceDate = some dPrev →
      ∀ d2, (runTxLookups env calls st).txSinceDate = some d2 → d2 ≤ dPrev := by
    intro calls
    induction calls with
    | nil =>
      intro st dPrev hp d2 h2
      rw [runTxLookups, hp] at h2
      exact le_of_eq (Option.some_injective _ h2).symm
    | cons c rest ih =>
      intro st dPrev hp d2 h2
      obtain ⟨q, hq, hle⟩ := txStep_since env st c.1 c.2 dPrev hp
      rw [runTxLookups] at h2
      exact le_trans (ih _ q hq d2 h2) hle
  refine ⟨?_, ?_, ?_, ?_, hseq⟩
  · intro st k d dPrev d2 hp h2
    obtain ⟨q, hq, hle⟩ := txStep_since env st k d dPrev hp
    rw [hq] at h2
    exact (Option.some_injective _ h2) ▸ hle
  · intro st k d dPrev d2 hp h2 hlt
    have hs0 : txSyncFrom0 env st = dPrev := by simp [txSyncFrom0, hp]
    cases hl : st.transactions.lookup k with
    | some ids =>
      have hst : (getTransactionFromImportId env st k d).st = st := by
        simp [getTransactionFromImportId, hl]
      rw [hst, hp] at h2
      have := Option.some_injective _ h2
      omega
    | none =>
      have hst : ((getTransactionFromImportId env st k d).st).txSinceDate =
          some (txQueryPair env st d).1 := by
        simp [getTransactionFromImportId, hl]
      have hfx : (getTransactionFromImportId env st k d).fx =
          [Effect.listYnabTransactions (env.dateStr (txQueryPair env st d).1)
            (txQueryPair env st d).2] := by
        simp [getTransactionFromImportId, hl]
      rw [hst] at h2
      have hd2 : (txQueryPair env st d).1 = d2 := Option.some_injective _ h2
      cases d with
      | none =>
        rw [txQueryPair, hs0] at hd2
        omega
      | some x =>
        by_cases hx : x < dPrev
        · have hpair : txQueryPair env st (some x) = (x, 0) := by
            rw [txQueryPair, hs0, if_pos hx]
          rw [hpair] at hd2 hfx
          simp only at hd2
          subst hd2
          exact ⟨rfl, hfx⟩
        · have hpair : txQueryPair env st (some x) = (dPrev, st.txKnowledge) := by
            rw [txQueryPair, hs0, if_neg hx]
          rw [hpair] at hd2
          simp only at hd2
          omega
  · intro st k d hl hd
    have hq : txQueryPair env st d = (txSyncFrom0 env st, st.txKnowledge) := by
      cases d with
      | none => rfl
      | some x =>
        rw [txQueryPair, if_neg (hd x rfl)]
    constructor
    · simp [getTransactionFromImportId, hl, hq]
    · simp [getTransactionFromImportId, hl, hq]
  · intro st k d hl hn
    have hs0 : txSyncFrom0 env st = env.nowDefaultSince := by
      simp [txSyncFrom0, hn]
    refine ⟨(txQueryPair env st d).1,
      by simp [getTransactionFromImportId, hl], ?_⟩
    cases d with
    | none => exact Or.inl (by simp [txQueryPair, hs0])
    | some x =>
      by_cases hx : x < env.nowDefaultSince
      · exact Or.inr (by simp [txQueryPair, hs0, hx])
      · exact Or.inl (by simp [txQueryPair, hs0, hx])

/-- Witness for C4: a cache remembering window start 10 refreshed with
caller date 5 moves the window to 5 and issues the query with token 0. -/
theorem C4_window_monotonic_witness :
    (some (5 : Int) = some (5 : Int)) ∧
    (getTransactionFromImportId env0 st10 "k" (some 5)).fx =
      [Effect.listYnabTransactions (env0.dateStr 5) 0] :=
  (C4_window_monotonic env0).2.1 st10 "k" (some 5) 10 5 rfl (by decide) (by decide)

/-! ### C6: the update touches only clearing state and amount -/

theorem reconcile_of_val_some (env : Env) (t : UpTransaction) (a : UpAccount)
    (st : YnabState) (ids : TransactionIds)
    (h : (getTransactionFromImportId env st (importIdOf t) (some t.createdAt)).val
      = some ids) :
    reconcile env t a st =
      ⟨ids, (getTransactionFromImportId env st (importIdOf t) (some t.createdAt)).st,
       (getTransactionFromImportId env st (importIdOf t) (some t.createdAt)).fx ++
         ynabUpdateTransaction ids.id (updateTx t) :: ctpTail ids t⟩ := by
  rw [reconcile]
  simp [h]

/-- C6: whenever the idempotency key resolves in the transaction cache, the
update sent to the destination ledger is exactly the two-field payload:
clearing state cleared iff settled, and the source minor-unit amount
rescaled by the fixed factor 10; account, date, memo, payee and import-id
fields are all absent from it. -/
theorem C6_update_two_fields (env : Env) (t : UpTransaction) (a : UpAccount)
    (st : YnabState) (ids : TransactionIds)
    (h : (getTransactionFromImportId env st (importIdOf t) (some t.createdAt)).val
      = some ids) :
    (reconcile env t a st).fx =
      (getTransactionFromImportId env st (importIdOf t) (some t.createdAt)).fx ++
        Effect.updateTransaction ids.id (removeEmptyProperties (updateTx t))
          :: ctpTail ids t ∧
    removeEmptyProperties (updateTx t) =
      ⟨some (if t.isSettled then "cleared" else "uncleared"),
       some (t.amount.valueInBaseUnits * 10), none, none, none, none, none, none⟩ := by
  constructor
  · rw [reconcile_of_val_some env t a st ids h]
    rfl
  · cases hs : t.isSettled <;>
      simp [removeEmptyProperties, updateTx, clearedStr, dropEmpty, hs]

/-- Witness for C6: the cached key of sampleTx is updated with cleared and
amount -15000 only. -/
theorem C6_update_two_fields_witness :
    (reconcile env0 sampleTx sampleAccount stHit).fx =
      (getTransactionFromImportId env0 stHit (importIdOf sampleTx)
          (some sampleTx.createdAt)).fx ++
        Effect.updateTransaction "yOld"
            (removeEmptyProperties (updateTx sampleTx))
          :: ctpTail ⟨"yOld", none⟩ sampleTx ∧
    removeEmptyProperties (updateTx sampleTx) =
      ⟨some (if sampleTx.isSettled then "cleared" else "uncleared"),
       some (sampleTx.amount.valueInBaseUnits * 10),
       none, none, none, none, none, none⟩ :=
  C6_update_two_fields env0 sampleTx sampleAccount stHit ⟨"yOld", none⟩ (by decide)

/-! ### C3: settlement propagation to the transfer counterpart -/

theorem getTx_fx_filter_minimal (env : Env) (st : YnabState) (k : String)
    (d : Option Int) :
    ((getTransactionFromImportId env st k d).fx).filter isMinimalClearUpdate = [] := by
  cases h : st.transactions.lookup k <;>
    simp [getTransactionFromImportId, h, isMinimalClearUpdate]

theorem getAcc_fx_filter_minimal (env : Env) (st : YnabState) (i : String) :
    ((ynabGetAccount env st i).fx).filter isMinimalClearUpdate = [] := by
  cases h : st.accounts.lookup i <;>
    simp [ynabGetAccount, h, isMinimalClearUpdate]

theorem createYnabAccount_fx_filter_minimal (env : Env) (st : YnabState)
    (u : UpAccount) :
    ((createYnabAccount env st u).fx).filter isMinimalClearUpdate = [] := by
  simp [createYnabAccount, ynabCreateAccount, isMinimalClearUpdate]

theorem payee_fx_filter_minimal (env : Env) (st : YnabState) (i : String) :
    ((getYnabTransferAccountPayeeId env st i).fx).filter isMinimalClearUpdate = [] := by
  rw [getYnabTransferAccountPayeeId]
  cases h : (ynabGetAccount env st i).val <;>
    simp [h, List.filter_append, getAcc_fx_filter_minimal,
      createYnabAccount_fx_filter_minimal]

theorem createTx_fx_filter_minimal (env : Env) (st : YnabState)
    (tx : YnabTransaction) :
    ((ynabCreateTransaction env st tx).fx).filter isMinimalClearUpdate = [] := by
  simp [ynabCreateTransaction, isMinimalClearUpdate]

theorem main_update_not_minimal (id : String) (t : UpTransaction) :
    isMinimalClearUpdate (ynabUpdateTransaction id (updateTx t)) = false := by
  have hne : removeEmptyProperties (updateTx t) ≠ minimalClearPayload := by
    intro h
    have h2 := congrArg YnabTransaction.amount h
    simp [removeEmptyProperties, updateTx, minimalClearPayload, clearedOnlyTx,
      dropEmpty] at h2
  simp [ynabUpdateTransaction, isMinimalClearUpdate, hne]

theorem ctpTail_filter_minimal (ids : TransactionIds) (t : UpTransaction) :
    (ctpTail ids t).filter isMinimalClearUpdate = ctpTail ids t := by
  rw [ctpTail]
  split
  · simp [isMinimalClearUpdate, ynabUpdateTransaction, minimalClearPayload]
  · simp

theorem filter_minimal_reconcile (env : Env) (t : UpTransaction) (a : UpAccount)
    (st : YnabState) :
    (reconcile env t a st).fx.filter isMinimalClearUpdate =
      ctpTail (reconcile env t a st).val t := by
  cases hv : (getTransactionFromImportId env st (importIdOf t) (some t.createdAt)).val with
  | some ids =>
    rw [reconcile_of_val_some env t a st ids hv]
    show ((getTransactionFromImportId env st (importIdOf t) (some t.createdAt)).fx ++
        ynabUpdateTransaction ids.id (updateTx t) :: ctpTail ids t).filter
          isMinimalClearUpdate = ctpTail ids t
    rw [List.filter_append, getTx_fx_filter_minimal,
      List.filter_cons_of_neg (by simp [main_update_not_minimal]),
      ctpTail_filter_minimal]
    rfl
  | none =>
    rw [reconcile]
    simp only [hv]
    cases haccv : (ynabGetAccount env
        (getTransactionFromImportId env st (importIdOf t) (some t.createdAt)).st
        a.id).val with
    | some ya =>
      by_cases htr : jsTruthyS t.transferAccount = true <;>
        simp [haccv, htr, List.filter_append, getTx_fx_filter_minimal,
          getAcc_fx_filter_minimal, payee_fx_filter_minimal,
          createTx_fx_filter_minimal, ctpTail_filter_minimal]
    | none =>
      by_cases htr : jsTruthyS t.transferAccount = true <;>
        simp [haccv, htr, List.filter_append, getTx_fx_filter_minimal,
          getAcc_fx_filter_minimal, payee_fx_filter_minimal,
          createYnabAccount_fx_filter_minimal,
          createTx_fx_filter_minimal, ctpTail_filter_minimal]

/-- C3: when the resolved destination identity links a transfer-counterpart
transaction and the source transaction is settled, the handler issues
exactly one minimal update to that counterpart, setting only its clearing
state to cleared; when the transaction is not settled or no counterpart is
linked, no such counterpart update is issued. -/
theorem C3_settlement_propagation (env : Env) (t : UpTransaction)
    (a : UpAccount) (st : YnabState) :
    ((jsTruthyS (reconcile env t a st).val.transfer_transaction_id = true ∧
        t.isSettled = true) →
      (reconcile env t a st).fx.filter isMinimalClearUpdate =
        [Effect.updateTransaction
          (getDStr (reconcile env t a st).val.transfer_transaction_id)
          minimalClearPayload]) ∧
    (¬(jsTruthyS (reconcile env t a st).val.transfer_transaction_id = true ∧
        t.isSettled = true) →
      (reconcile env t a st).fx.filter isMinimalClearUpdate = []) ∧
    minimalClearPayload =
      ⟨some "cleared", none, none, none, none, none, none, none⟩ := by
  have hf := filter_minimal_reconcile env t a st
  refine ⟨?_, ?_, by decide⟩
  · intro hc
    rw [hf, ctpTail, if_pos hc]
    rfl
  · intro hc
    rw [hf, ctpTail, if_neg hc]

/-- Witness for C3: with a cached counterpart link and a settled source
transaction the counterpart-clearing update is issued exactly once, and
with no counterpart link it is not issued at all. -/
theorem C3_settlement_propagation_witness :
    (reconcile env0 sampleTx sampleAccount stHitT).fx.filter isMinimalClearUpdate =
      [Effect.updateTransaction
        (getDStr (reconcile env0 sampleTx sampleAccount stHitT).val.transfer_transaction_id)
        minimalClearPayload] ∧
    (reconcile env0 sampleTx sampleAccount stHit).fx.filter isMinimalClearUpdate = [] :=
  ⟨(C3_settlement_propagation env0 sampleTx sampleAccount stHitT).1 (by decide),
   (C3_settlement_propagation env0 sampleTx sampleAccount stHit).2.1 (by decide)⟩

/-! ### Webhook-level helper lemmas -/

theorem webhook_valid_eq (env : Env) (cfg : Config) (ap sig : Option String)
    (body : String) (st : YnabState)
    (hacc : ap = some "primary" ∨ ap = some "secondary")
    (hsig : validateWebhookSignature env (secretFor cfg (connOf ap)) body sig = true) :
    webhook env cfg ap sig body st =
      handleEvent env (connOf ap) (env.parseEvent body) st := by
  rcases hacc with h | h <;> subst h <;> simp [webhook, hsig]

theorem handleEvent_skip1 (env : Env) (c : Conn) (json : WebhookEvent)
    (st : YnabState) (t : UpTransaction)
    (htype : json.eventType = "TRANSACTION_CREATED" ∨
      json.eventType = "TRANSACTION_SETTLED")
    (ht : env.getTransaction c json.transactionId = t)
    (h1 : jsTruthyS t.transferAccount = true ∧ t.amount.valueInBaseUnits > 0) :
    handleEvent env c json st =
      ⟨200, none, [Effect.fetchUpTransaction c json.transactionId], st, none⟩ := by
  rw [handleEvent, if_pos htype]
  simp only [ht]
  rw [if_pos h1]

theorem handleEvent_skip2 (env : Env) (c : Conn) (json : WebhookEvent)
    (st : YnabState) (t : UpTransaction) (a : UpAccount)
    (htype : json.eventType = "TRANSACTION_CREATED" ∨
      json.eventType = "TRANSACTION_SETTLED")
    (ht : env.getTransaction c json.transactionId = t)
    (ha : env.getUpAccount c t.accountId = a)
    (h1 : ¬(jsTruthyS t.transferAccount = true ∧ t.amount.valueInBaseUnits > 0))
    (h2 : a.ownershipType = OwnershipType.JOINT ∧ c = Conn.secondary) :
    handleEvent env c json st =
      ⟨200, none,
       [Effect.fetchUpTransaction c json.transactionId,
        Effect.fetchUpAccount c t.accountId], st, none⟩ := by
  rw [handleEvent, if_pos htype]
  simp only [ht]
  rw [if_neg h1]
  simp only [ha]
  rw [if_pos h2]
  rfl

theorem handleEvent_processed (env : Env) (c : Conn) (json : WebhookEvent)
    (st : YnabState) (t : UpTransaction) (a : UpAccount)
    (htype : json.eventType = "TRANSACTION_CREATED" ∨
      json.eventType = "TRANSACTION_SETTLED")
    (ht : env.getTransaction c json.transactionId = t)
    (ha : env.getUpAccount c t.accountId = a)
    (h1 : ¬(jsTruthyS t.transferAccount = true ∧ t.amount.valueInBaseUnits > 0))
    (h2 : ¬(a.ownershipType = OwnershipType.JOINT ∧ c = Conn.secondary)) :
    handleEvent env c json st =
      ⟨200, some "",
       [Effect.fetchUpTransaction c json.transactionId,
        Effect.fetchUpAccount c t.accountId] ++ (reconcile env t a st).fx,
       (reconcile env t a st).st, some (reconcile env t a st).val⟩ := by
  rw [handleEvent, if_pos htype]
  simp only [ht]
  rw [if_neg h1]
  simp only [ha]
  rw [if_neg h2]
  rfl

theorem getTx_fx_filter_write (env : Env) (st : YnabState) (k : String)
    (d : Option Int) :
    ((getTransactionFromImportId env st k d).fx).filter isWrite = [] := by
  cases h : st.transactions.lookup k <;>
    simp [getTransactionFromImportId, h, isWrite]

theorem getAcc_fx_filter_write (env : Env) (st : YnabState) (i : String) :
    ((ynabGetAccount env st i).fx).filter isWrite = [] := by
  cases h : st.accounts.lookup i <;>
    simp [ynabGetAccount, h, isWrite]

theorem reconcile_write_filter_ne_nil (env : Env) (t : UpTransaction)
    (a : UpAccount) (st : YnabState) :
    (reconcile env t a st).fx.filter isWrite ≠ [] := by
  cases hv : (getTransactionFromImportId env st (importIdOf t) (some t.createdAt)).val with
  | some ids =>
    rw [reconcile_of_val_some env t a st ids hv]
    show ((getTransactionFromImportId env st (importIdOf t) (some t.createdAt)).fx ++
        ynabUpdateTransaction ids.id (updateTx t) :: ctpTail ids t).filter
          isWrite ≠ []
    rw [List.filter_append, getTx_fx_filter_write]
    simp [ynabUpdateTransaction, isWrite]
  | none =>
    rw [reconcile]
    simp only [hv]
    cases haccv : (ynabGetAccount env
        (getTransactionFromImportId env st (importIdOf t) (some t.createdAt)).st
        a.id).val with
    | some ya =>
      by_cases htr : jsTruthyS t.transferAccount = true <;>
        simp [haccv, htr, List.filter_append, getTx_fx_filter_write,
          getAcc_fx_filter_write, ynabCreateTransaction, isWrite,
          List.append_eq_nil]
    | none =>
      by_cases htr : jsTruthyS t.transferAccount = true <;>
        simp [haccv, htr, List.filter_append, getTx_fx_filter_write,
          getAcc_fx_filter_write, ynabCreateTransaction, isWrite,
          List.append_eq_nil]

/-! ### C2: the internal-transfer skip rule -/

/-- Counterexample to C2 as stated: a non-transfer debit owned by a joint
account delivered on the secondary connection is skipped (success, no
destination-ledger write) although it has no transfer-counterpart account,
so the claimed biconditional fails in the only-if direction. -/
theorem C2_transfer_dedup_counterexample :
    (webhook envJoint cfg0 (some "secondary") (some "sig") "b"
      initialYnabState).status = 200 ∧
    (webhook envJoint cfg0 (some "secondary") (some "sig") "b"
      initialYnabState).effects.filter isWrite = [] ∧
    ¬(jsTruthyS jointTx.transferAccount = true ∧
      jointTx.amount.valueInBaseUnits > 0) := by
  decide

/-- C2 (amended): on a valid, authenticated created/settled event the
handler returns success without any destination-ledger write exactly when
the transaction has a truthy transfer-counterpart account and a positive
minor-unit amount, or the owning account is joint and the connection is
secondary; in particular, for a transfer pair on an account not caught by
the joint rule, exactly the credit side is skipped. -/
theorem C2_transfer_dedup (env : Env) (cfg : Config) (ap sig : Option String)
    (body : String) (st : YnabState) (t : UpTransaction) (a : UpAccount)
    (hacc : ap = some "primary" ∨ ap = some "secondary")
    (hsig : validateWebhookSignature env (secretFor cfg (connOf ap)) body sig = true)
    (htype : (env.parseEvent body).eventType = "TRANSACTION_CREATED" ∨
      (env.parseEvent body).eventType = "TRANSACTION_SETTLED")
    (ht : env.getTransaction (connOf ap) ((env.parseEvent body).transactionId) = t)
    (ha : env.getUpAccount (connOf ap) t.accountId = a) :
    ((webhook env cfg ap sig body st).effects.filter isWrite = [] ∧
      (webhook env cfg ap sig body st).status = 200) ↔
      ((jsTruthyS t.transferAccount = true ∧ t.amount.valueInBaseUnits > 0) ∨
       (a.ownershipType = OwnershipType.JOINT ∧ connOf ap = Conn.secondary)) := by
  rw [webhook_valid_eq env cfg ap sig body st hacc hsig]
  constructor
  · rintro ⟨hw, _⟩
    by_contra hno
    rw [not_or] at hno
    rw [handleEvent_processed env (connOf ap) (env.parseEvent body) st t a htype
      ht ha hno.1 hno.2] at hw
    simp only [List.filter_append] at hw
    have h2 : (reconcile env t a st).fx.filter isWrite = [] := by
      have hfetch : ([Effect.fetchUpTransaction (connOf ap)
          ((env.parseEvent body).transactionId),
          Effect.fetchUpAccount (connOf ap) t.accountId].filter isWrite) = [] := by
        simp [isWrite]
      rw [hfetch] at hw
      exact hw
    exact reconcile_write_filter_ne_nil env t a st h2
  · intro h
    by_cases h1 : jsTruthyS t.transferAccount = true ∧ t.amount.valueInBaseUnits > 0
    · rw [handleEvent_skip1 env (connOf ap) (env.parseEvent body) st t htype ht h1]
      exact ⟨by simp [isWrite], rfl⟩
    · have h2 : a.ownershipType = OwnershipType.JOINT ∧ connOf ap = Conn.secondary := by
        rcases h with h | h
        · exact absurd h h1
        · exact h
      rw [handleEvent_skip2 env (connOf ap) (env.parseEvent body) st t a htype
        ht ha h1 h2]
      exact ⟨by simp [isWrite], rfl⟩

/-- Witness for C2 (amended) at the standalone debit of the spec scenario,
where neither skip rule applies. -/
theorem C2_transfer_dedup_witness :
    ((webhook env0 cfg0 (some "primary") (some "sig") "b"
        initialYnabState).effects.filter isWrite = [] ∧
      (webhook env0 cfg0 (some "primary") (some "sig") "b"
        initialYnabState).status = 200) ↔
      ((jsTruthyS sampleTx.transferAccount = true ∧
        sampleTx.amount.valueInBaseUnits > 0) ∨
       (sampleAccount.ownershipType = OwnershipType.JOINT ∧
        connOf (some "primary") = Conn.secondary)) :=
  C2_transfer_dedup env0 cfg0 (some "primary") (some "sig") "b" initialYnabState
    sampleTx sampleAccount (Or.inl rfl) (by decide) (Or.inl rfl) rfl rfl

/-! ### C5: joint-account routing -/

/-- Counterexample to C5 as stated: the credit side of a transfer owned by
a joint account is a created event on a joint account; via secondary it is
not reconciled (as the claim says), but the same event via primary is not
reconciled either — the internal-transfer rule skips it — contradicting
the claim that the same event arriving on primary is reconciled. -/
theorem C5_joint_routing_counterexample :
    jointAccount.ownershipType = OwnershipType.JOINT ∧
    (webhook envJointCredit cfg0 (some "secondary") (some "sig") "b"
      initialYnabState).resolved = none ∧
    (webhook envJointCredit cfg0 (some "secondary") (some "sig") "b"
      initialYnabState).effects.filter isWrite = [] ∧
    (webhook envJointCredit cfg0 (some "primary") (some "sig") "b"
      initialYnabState).resolved = none ∧
    (webhook envJointCredit cfg0 (some "primary") (some "sig") "b"
      initialYnabState).effects.filter isWrite = [] := by
  decide

/-- C5 (amended): a created/settled event of a joint account arriving on
the secondary connection is never reconciled and answers success with no
destination write; the same event on the primary connection is reconciled
provided the internal-transfer rule does not skip it; and the joint rule
never skips events of non-joint accounts on either connection. -/
theorem C5_joint_routing (env : Env) (cfg : Config) (ap sig : Option String)
    (body : String) (st : YnabState) (t : UpTransaction) (a : UpAccount)
    (hacc : ap = some "primary" ∨ ap = some "secondary")
    (hsig : validateWebhookSignature env (secretFor cfg (connOf ap)) body sig = true)
    (htype : (env.parseEvent body).eventType = "TRANSACTION_CREATED" ∨
      (env.parseEvent body).eventType = "TRANSACTION_SETTLED")
    (ht : env.getTransaction (connOf ap) ((env.parseEvent body).transactionId) = t)
    (ha : env.getUpAccount (connOf ap) t.accountId = a) :
    (a.ownershipType = OwnershipType.JOINT → connOf ap = Conn.secondary →
      (webhook env cfg ap sig body st).status = 200 ∧
      (webhook env cfg ap sig body st).effects.filter isWrite = [] ∧
      (webhook env cfg ap sig body st).resolved = none) ∧
    (¬(jsTruthyS t.transferAccount = true ∧ t.amount.valueInBaseUnits > 0) →
      connOf ap = Conn.primary →
      ((webhook env cfg ap sig body st).resolved).isSome = true) ∧
    (a.ownershipType ≠ OwnershipType.JOINT →
      ¬(jsTruthyS t.transferAccount = true ∧ t.amount.valueInBaseUnits > 0) →
      ((webhook env cfg ap sig body st).resolved).isSome = true) := by
  rw [webhook_valid_eq env cfg ap sig body st hacc hsig]
  refine ⟨?_, ?_, ?_⟩
  · intro hj hc
    by_cases h1 : jsTruthyS t.transferAccount = true ∧ t.amount.valueInBaseUnits > 0
    · rw [handleEvent_skip1 env (connOf ap) (env.parseEvent body) st t htype ht h1]
      exact ⟨rfl, by simp [isWrite], rfl⟩
    · rw [handleEvent_skip2 env (connOf ap) (env.parseEvent body) st t a htype
        ht ha h1 ⟨hj, hc⟩]
      exact ⟨rfl, by simp [isWrite], rfl⟩
  · intro h1 hc
    have h2 : ¬(a.ownershipType = OwnershipType.JOINT ∧
        connOf ap = Conn.secondary) := by
      rintro ⟨_, h⟩
      rw [hc] at h
      exact Conn.noConfusion h
    rw [handleEvent_processed env (connOf ap) (env.parseEvent body) st t a htype
      ht ha h1 h2]
    rfl
  · intro hj h1
    have h2 : ¬(a.ownershipType = OwnershipType.JOINT ∧
        connOf ap = Conn.secondary) := fun h => hj h.1
    rw [handleEvent_processed env (connOf ap) (env.parseEvent body) st t a htype
      ht ha h1 h2]
    rfl

/-- Witness for C5 (amended): a non-transfer joint-account event on the
secondary connection is skipped with success and no write. -/
theorem C5_joint_routing_witness :
    (webhook envJoint cfg0 (some "secondary") (some "sig") "b"
      initialYnabState).status = 200 ∧
    (webhook envJoint cfg0 (some "secondary") (some "sig") "b"
      initialYnabState).effects.filter isWrite = [] ∧
    (webhook envJoint cfg0 (some "secondary") (some "sig") "b"
      initialYnabState).resolved = none :=
  (C5_joint_routing envJoint cfg0 (some "secondary") (some "sig") "b"
    initialYnabState jointTx jointAccount (Or.inr rfl) (by decide)
    (Or.inl rfl) rfl rfl).1 rfl rfl

/-! ### C9: the init endpoint status contract -/

/-- Counterexample to C9 as stated: with the callback URL configured and
the secret variable unset, the endpoint still answers 500 when a webhook
matching the callback URL already exists and replaceExisting is not set. -/
theorem C9_init_counterexample :
    (init ienv0 none (some "primary")).status = 500 ∧
    jsTruthyS (ienv0.envVar "WEBHOOK_URL") = true ∧
    ienv0.envVar "UP_PRIMARY_WEBHOOK" = none := by
  decide

/-- C9 (amended): with a valid account selector the response status is 500
exactly when the callback-URL configuration is falsy, the connection secret
variable is already truthy, or webhooks matching the callback URL exist and
replaceExisting is not set; otherwise the status is 200 and the body
carries the newly issued webhook secret. -/
theorem C9_init_status (ienv : InitEnv) (rep ap : Option String)
    (hacc : ap = some "primary" ∨ ap = some "secondary") :
    ((init ienv rep ap).status = 500 ↔
      (jsTruthyS (ienv.envVar "WEBHOOK_URL") = false ∨
       jsTruthyS (ienv.envVar (secretVarName (connOf ap))) = true ∨
       (((ienv.getWebhooks (connOf ap)).filter (fun x => x.url =
           ienv.renderUrl (getDStr (ienv.envVar "WEBHOOK_URL"))
             (connStr (connOf ap)))).length > 0 ∧ ¬(rep = some "true")))) ∧
    ((init ienv rep ap).status ≠ 500 →
      (init ienv rep ap).status = 200 ∧
      (init ienv rep ap).body =
        "Save the secret as a variable in " ++ secretVarName (connOf ap) ++
          ": " ++ showOptStr (ienv.newWebhookSecretKey (connOf ap))) := by
  have hinit : init ienv rep ap =
      (if jsTruthyS (ienv.envVar "WEBHOOK_URL") = false then
        ⟨500, "Environmental variable WEBHOOK_URL is missing.", []⟩
      else if jsTruthyS (ienv.envVar (secretVarName (connOf ap))) = true then
        ⟨500, "Environmental variable " ++ secretVarName (connOf ap) ++
          " is already set.", []⟩
      else
        let matchingWebhooks := (ienv.getWebhooks (connOf ap)).filter
          (fun x => x.url = ienv.renderUrl (getDStr (ienv.envVar "WEBHOOK_URL"))
            (connStr (connOf ap)))
        if matchingWebhooks.length > 0 ∧ ¬(rep = some "true") then
          ⟨500, "Found " ++ toString matchingWebhooks.length ++
            " existing webhooks using this url. Delete them with replaceExisting=true",
           []⟩
        else
          ⟨200, "Save the secret as a variable in " ++ secretVarName (connOf ap) ++
            ": " ++ showOptStr (ienv.newWebhookSecretKey (connOf ap)),
           (if rep = some "true" then
              matchingWebhooks.map (fun w => InitEffect.deleteWebhook w.id)
            else []) ++
             [InitEffect.createWebhook
               (ienv.renderUrl (getDStr (ienv.envVar "WEBHOOK_URL"))
                 (connStr (connOf ap)))
               ("up-ynab-sync " ++ connStr (connOf ap))]⟩ : InitResult) := by
    rcases hacc with h | h <;> subst h <;>
      simp [init, connOf]
  rw [hinit]
  by_cases h1 : jsTruthyS (ienv.envVar "WEBHOOK_URL") = false
  · simp [h1]
  · by_cases h2 : jsTruthyS (ienv.envVar (secretVarName (connOf ap))) = true
    · simp [h1, h2]
    · by_cases h3 : (((ienv.getWebhooks (connOf ap)).filter (fun x => x.url =
          ienv.renderUrl (getDStr (ienv.envVar "WEBHOOK_URL"))
            (connStr (connOf ap)))).length > 0 ∧ ¬(rep = some "true"))
      · simp [h1, h2, h3]
      · simp [h1, h2, h3]

/-- Witness for C9 (amended): with a clean configuration and no existing
webhook the endpoint answers 200 and the body carries the issued secret. -/
theorem C9_init_status_witness :
    (init ienvOk none (some "primary")).status = 200 ∧
    (init ienvOk none (some "primary")).body =
      "Save the secret as a variable in " ++ secretVarName (connOf (some "primary")) ++
        ": " ++ showOptStr (ienvOk.newWebhookSecretKey (connOf (some "primary"))) :=
  (C9_init_status ienvOk none (some "primary") (Or.inl rfl)).2 (by decide)

/-! ### C1: idempotent redelivery -/

theorem getTx_of_hit (env : Env) (st : YnabState) (k : String) (d : Option Int)
    (ids : TransactionIds) (h : st.transactions.lookup k = some ids) :
    getTransactionFromImportId env st k d = ⟨some ids, st, []⟩ := by
  simp [getTransactionFromImportId, h]

theorem createTx_resolves (env : Env) (st : YnabState) (tx : YnabTransaction)
    (iid : String)
    (hecho : (env.createTransactionResp tx).import_id = tx.import_id)
    (hiid : tx.import_id = some iid) (hne : iid ≠ "") :
    (ynabCreateTransaction env st tx).st.transactions.lookup iid =
      some (ynabCreateTransaction env st tx).val := by
  rw [ynabCreateTransaction]
  simp only [hecho, hiid]
  simp [jsTruthyS, hne, getDStr, lookup_mapSet_self]

theorem reconcile_resolves (env : Env) (t : UpTransaction) (a : UpAccount)
    (st : YnabState)
    (hecho : ∀ tx, (env.createTransactionResp tx).import_id = tx.import_id) :
    (reconcile env t a st).st.transactions.lookup (importIdOf t) =
      some (reconcile env t a st).val := by
  cases hv : (getTransactionFromImportId env st (importIdOf t) (some t.createdAt)).val with
  | some ids =>
    rw [reconcile_of_val_some env t a st ids hv]
    show (getTransactionFromImportId env st (importIdOf t) (some t.createdAt)).st.transactions.lookup
        (importIdOf t) = some ids
    rw [← getTx_val_eq_lookup]
    exact hv
  | none =>
    rw [reconcile]
    simp only [hv]
    by_cases htr : jsTruthyS t.transferAccount = true <;>
    · simp only [htr]
      apply createTx_resolves
      · exact hecho _
      · simp
      · exact importIdOf_ne_empty t

theorem ctpTail_filter_createTx (ids : TransactionIds) (t : UpTransaction) :
    (ctpTail ids t).filter isCreateTx = [] := by
  rw [ctpTail]
  split <;> simp [isCreateTx, ynabUpdateTransaction]

theorem ctpTail_filter_write (ids : TransactionIds) (t : UpTransaction) :
    (ctpTail ids t).filter isWrite = ctpTail ids t := by
  rw [ctpTail]
  split <;> simp [isWrite, ynabUpdateTransaction]

/-- C1: a created event delivered twice in sequence never creates a second
destination transaction: after the first delivery the idempotency key is
present in the transaction cache, the second delivery resolves it there and
issues only clearing/amount updates (the minimal counterpart-clearing
update included), and both deliveries resolve to the same destination
transaction identity.  The destination ledger is assumed to echo the
idempotency key of a creation back, as the cache-population step of the
handler requires. -/
theorem C1_idempotent_delivery (env : Env) (cfg : Config) (ap sig : Option String)
    (body : String) (st0 : YnabState) (t : UpTransaction) (a : UpAccount)
    (hacc : ap = some "primary" ∨ ap = some "secondary")
    (hsig : validateWebhookSignature env (secretFor cfg (connOf ap)) body sig = true)
    (htype : (env.parseEvent body).eventType = "TRANSACTION_CREATED")
    (ht : env.getTransaction (connOf ap) ((env.parseEvent body).transactionId) = t)
    (ha : env.getUpAccount (connOf ap) t.accountId = a)
    (h1 : ¬(jsTruthyS t.transferAccount = true ∧ t.amount.valueInBaseUnits > 0))
    (h2 : ¬(a.ownershipType = OwnershipType.JOINT ∧ connOf ap = Conn.secondary))
    (hecho : ∀ tx, (env.createTransactionResp tx).import_id = tx.import_id) :
    (webhook env cfg ap sig body
        (webhook env cfg ap sig body st0).state).effects.filter isCreateTx = [] ∧
    ∃ ids,
      (webhook env cfg ap sig body st0).state.transactions.lookup (importIdOf t)
        = some ids ∧
      (webhook env cfg ap sig body st0).resolved = some ids ∧
      (webhook env cfg ap sig body
        (webhook env cfg ap sig body st0).state).resolved = some ids ∧
      (webhook env cfg ap sig body
        (webhook env cfg ap sig body st0).state).effects.filter isWrite =
        Effect.updateTransaction ids.id (removeEmptyProperties (updateTx t))
          :: ctpTail ids t := by
  have hw1 : webhook env cfg ap sig body st0 =
      ⟨200, some "",
       [Effect.fetchUpTransaction (connOf ap) ((env.parseEvent body).transactionId),
        Effect.fetchUpAccount (connOf ap) t.accountId] ++ (reconcile env t a st0).fx,
       (reconcile env t a st0).st, some (reconcile env t a st0).val⟩ := by
    rw [webhook_valid_eq env cfg ap sig body st0 hacc hsig,
      handleEvent_processed env (connOf ap) (env.parseEvent body) st0 t a
        (Or.inl htype) ht ha h1 h2]
  have hhit : (reconcile env t a st0).st.transactions.lookup (importIdOf t) =
      some (reconcile env t a st0).val := reconcile_resolves env t a st0 hecho
  have hget2 : getTransactionFromImportId env (reconcile env t a st0).st
      (importIdOf t) (some t.createdAt) =
      ⟨some (reconcile env t a st0).val, (reconcile env t a st0).st, []⟩ :=
    getTx_of_hit env _ (importIdOf t) (some t.createdAt) _ hhit
  have hrec2 : reconcile env t a (reconcile env t a st0).st =
      ⟨(reconcile env t a st0).val, (reconcile env t a st0).st,
       ynabUpdateTransaction (reconcile env t a st0).val.id (updateTx t)
         :: ctpTail (reconcile env t a st0).val t⟩ := by
    rw [reconcile_of_val_some env t a (reconcile env t a st0).st
      (reconcile env t a st0).val (by rw [hget2]), hget2]
    rfl
  have hw2 : webhook env cfg ap sig body (webhook env cfg ap sig body st0).state =
      ⟨200, some "",
       [Effect.fetchUpTransaction (connOf ap) ((env.parseEvent body).transactionId),
        Effect.fetchUpAccount (connOf ap) t.accountId] ++
         (ynabUpdateTransaction (reconcile env t a st0).val.id (updateTx t)
           :: ctpTail (reconcile env t a st0).val t),
       (reconcile env t a st0).st, some (reconcile env t a st0).val⟩ := by
    rw [hw1]
    rw [webhook_valid_eq env cfg ap sig body (reconcile env t a st0).st hacc hsig,
      handleEvent_processed env (connOf ap) (env.parseEvent body)
        (reconcile env t a st0).st t a (Or.inl htype) ht ha h1 h2, hrec2]
  refine ⟨?_, (reconcile env t a st0).val, ?_, ?_, ?_, ?_⟩
  · rw [hw2]
    simp [List.filter_append, isCreateTx, ynabUpdateTransaction,
      ctpTail_filter_createTx]
  · rw [hw1]
    exact hhit
  · rw [hw1]
  · rw [hw2]
  · rw [hw2]
    simp [List.filter_append, isWrite, ynabUpdateTransaction,
      ctpTail_filter_write]

/-- Witness for C1 at the standalone debit scenario: the second delivery of
the created event for sampleTx is update-only. -/
theorem C1_idempotent_delivery_witness :
    (webhook env0 cfg0 (some "primary") (some "sig") "b"
        (webhook env0 cfg0 (some "primary") (some "sig") "b"
          initialYnabState).state).effects.filter isCreateTx = [] ∧
    ∃ ids,
      (webhook env0 cfg0 (some "primary") (some "sig") "b"
          initialYnabState).state.transactions.lookup (importIdOf sampleTx)
        = some ids ∧
      (webhook env0 cfg0 (some "primary") (some "sig") "b"
          initialYnabState).resolved = some ids ∧
      (webhook env0 cfg0 (some "primary") (some "sig") "b"
        (webhook env0 cfg0 (some "primary") (some "sig") "b"
          initialYnabState).state).resolved = some ids ∧
      (webhook env0 cfg0 (some "primary") (some "sig") "b"
        (webhook env0 cfg0 (some "primary") (some "sig") "b"
          initialYnabState).state).effects.filter isWrite =
        Effect.updateTransaction ids.id (removeEmptyProperties (updateTx sampleTx))
          :: ctpTail ids sampleTx :=
  C1_idempotent_delivery env0 cfg0 (some "primary") (some "sig") "b"
    initialYnabState sampleTx sampleAccount (Or.inl rfl) (by decide) rfl rfl rfl
    (by decide) (by decide) (fun tx => rfl)

end UpSync

